import Mathlib

/-!
Verification development for the OBT (Ollama Benchmark Tool) repository.

The repository ships a SvelteKit frontend (TypeScript, under
`src/frontend` and `src/unnamed`); the backend components the spec calls
the Agent Liveness Registry, Benchmark Session Coordinator and Metrics
Aggregator are not present under `src/` (only their HTTP callers, the
docs and the data shapes are).  Frontend functions are embedded directly
from their TypeScript sources; the missing backend parts are modelled
from the spec, and every such definition says so in its doc comment.

Numbers are embedded as `ℚ` (JS numbers used for metric values), sizes
and comparator results as `ℤ`, timestamps as `ℕ`.  `fetch` results are
made explicit as an outcome argument, so an `async` store method becomes
a pure function of the pre-state and the outcome.
-/

namespace OBT

/-! ## Store data model

Embedded from `src/frontend/src/lib/stores/benchmark.ts` and
`src/unnamed/part_016` (the richer variant of the same store: its
`Client` carries `name` and `models`, its `Prompt` carries
`description`/`selected`).  Fields keep their TypeScript names. -/

structure ClientHardware where
  cpu_threads : ℕ
  gpu_count : ℕ
  gpu_name : Option String
  gpu_memory : Option ℕ
  deriving DecidableEq

structure Model where
  name : String
  client_id : String
  size : ℤ
  digest : String
  deriving DecidableEq

structure Client where
  id : String
  name : String
  version : String
  available : Bool
  model_count : ℕ
  last_heartbeat : String
  hardware : ClientHardware
  models : List Model
  deriving DecidableEq

structure Prompt where
  id : String
  name : String
  content : String
  description : String
  selected : Bool
  deriving DecidableEq

structure GPU where
  id : String
  name : String
  memory : ℕ
  client_id : String
  deriving DecidableEq

structure HardwareConfig where
  client_id : String
  use_gpu : Bool
  gpu_id : Option String
  threads : ℕ
  deriving DecidableEq

structure TestConfig where
  iterations : ℕ
  parallel_clients : Bool
  deriving DecidableEq

structure ActiveBenchmark where
  client_id : String
  status : String
  completed_prompts : ℕ
  total_prompts : ℕ
  deriving DecidableEq

inductive SortField where
  | name
  | size
  | modified_at
  deriving DecidableEq

inductive SortDirection where
  | asc
  | desc
  deriving DecidableEq

/-- The store state (`BenchmarkState` in the source).  `activeTests`
(a JS `Map`) is embedded as an association list. -/
structure BenchmarkState where
  clients : List Client
  selectedClients : List String
  models : List Model
  selectedModels : List String
  prompts : List Prompt
  selectedPrompts : List String
  availableGPUs : List GPU
  hardwareConfig : HardwareConfig
  testConfig : TestConfig
  searchTerm : String
  sortField : SortField
  sortDirection : SortDirection
  loading : Bool
  error : Option String
  activeTests : List (String × String)
  activeBenchmarks : List ActiveBenchmark
  deriving DecidableEq

/-- `initialState` from the source.  `threads` is
`navigator.hardwareConcurrency || 4`; outside a browser (`navigator`
undefined) the source falls back to `4`, which is the value used here. -/
def initialBenchmarkState : BenchmarkState where
  clients := []
  selectedClients := []
  models := []
  selectedModels := []
  prompts := []
  selectedPrompts := []
  availableGPUs := []
  hardwareConfig := { client_id := "", use_gpu := false, gpu_id := none, threads := 4 }
  testConfig := { iterations := 1, parallel_clients := false }
  searchTerm := ""
  sortField := .name
  sortDirection := .asc
  loading := true
  error := none
  activeTests := []
  activeBenchmarks := []

/-! ## Store methods -/

/-- Outcome of the `fetch` in `getClients`: the parsed JSON body on a
2xx response, `httpNotOk` for a non-OK status (the source then throws
`Error('Failed to fetch clients')`), or a rejected promise carrying a
message. -/
inductive ClientsFetch where
  | ok (clients : List Client)
  | httpNotOk
  | networkFail (msg : String)
  deriving DecidableEq

/-- `getClients` from the store: sets `loading:=true, error:=null`,
fetches, and on success stores the clients and returns them; on any
failure it catches, records `error.message`, clears `loading` and
returns `[]`. -/
def getClients (st : BenchmarkState) (outcome : ClientsFetch) :
    BenchmarkState × List Client :=
  let st1 := { st with loading := true, error := none }
  match outcome with
  | .ok cs => ({ st1 with clients := cs, loading := false }, cs)
  | .httpNotOk =>
      ({ st1 with error := some "Failed to fetch clients", loading := false }, [])
  | .networkFail msg =>
      ({ st1 with error := some msg, loading := false }, [])

/-- `toggleModel` from the store: if the name is in `selectedModels`,
filter out every occurrence; otherwise append it.  No other field is
touched. -/
def toggleModel (st : BenchmarkState) (modelName : String) : BenchmarkState :=
  { st with
    selectedModels :=
      if st.selectedModels.contains modelName then
        st.selectedModels.filter (fun m => m ≠ modelName)
      else
        st.selectedModels ++ [modelName] }

/-- JS `a || b` for an optional string: `b` when `a` is `undefined` or
the empty string (falsy), otherwise `a`. -/
def jsOrString (a : Option String) (b : String) : String :=
  match a with
  | none => b
  | some s => if s = "" then b else s

/-- Outcome of the POST in `startBenchmark`: on a non-OK status the
source reads `errorData.detail` from the body (maybe absent) and throws
`Error(errorData.detail || 'Failed to start benchmark')`. -/
inductive StartOutcome where
  | ok (benchId : String)
  | httpNotOk (detail : Option String)
  | networkFail (msg : String)
  deriving DecidableEq

/-- `startBenchmark` from `src/unnamed/part_016`: sets
`loading:=true, error:=null`, posts, and on success parses the response
(the benchmark id) but only logs it — the id is neither stored nor
returned (the store update that would keep it is commented out in the
source).  On failure the caught message goes into `error`.  The
`finally` block clears `loading` on every path.  The function body has
no `return`, so the caller always receives `undefined`, embedded as the
`none` in the second component. -/
def startBenchmark (st : BenchmarkState) (outcome : StartOutcome) :
    BenchmarkState × Option String :=
  let st1 := { st with loading := true, error := none }
  match outcome with
  | .ok _ => ({ st1 with loading := false }, none)
  | .httpNotOk detail =>
      ({ st1 with error := some (jsOrString detail "Failed to start benchmark"),
                  loading := false }, none)
  | .networkFail msg =>
      ({ st1 with error := some msg, loading := false }, none)

/-! ## Model filtering and sorting (`filterAndSortModels`) -/

/-- Does `needle` match `hay` starting at its head? -/
def matchesAt : List Char → List Char → Bool
  | [], _ => true
  | _ :: _, [] => false
  | n :: ns, h :: hs => n = h && matchesAt ns hs

/-- Does `needle` occur contiguously anywhere in `hay`?  Embeds JS
`String.prototype.includes`. -/
def occursIn (needle : List Char) : List Char → Bool
  | [] => needle.isEmpty
  | h :: hs => matchesAt needle (h :: hs) || occursIn needle hs

/-- The filter predicate of `filterAndSortModels`:
`model.name.toLowerCase().includes(searchTerm.toLowerCase())`, with
`toLowerCase` embedded character-wise via `Char.toLower`. -/
def matchesSearch (term : String) (m : Model) : Bool :=
  occursIn (term.toList.map Char.toLower) (m.name.toList.map Char.toLower)

/-- The comparator of `filterAndSortModels`, by `sortField`.
`name` uses `localeCompare`, embedded as the lexicographic order on the
string; `size` is `a.size - b.size`.  The `Model` interface has no
`modified_at` field, so in that case the source computes
`undefined - undefined = NaN`, and ECMAScript coerces a NaN comparator
result to `+0`: every pair ties, embedded as the constant `0`. -/
def modelComparison (f : SortField) (a b : Model) : ℤ :=
  match f with
  | .name => if a.name < b.name then -1 else if b.name < a.name then 1 else 0
  | .size => a.size - b.size
  | .modified_at => 0

/-- The comparator actually passed to `sort`: the `sortDirection`
branch returns `comparison` for `asc` and `-comparison` for `desc`. -/
def effectiveComparison (f : SortField) (d : SortDirection) (a b : Model) : ℤ :=
  match d with
  | .asc => modelComparison f a b
  | .desc => -(modelComparison f a b)

/-- The order the comparator induces: `a` may precede `b` exactly when
the comparator is non-positive. -/
def modelLE (f : SortField) (d : SortDirection) (a b : Model) : Prop :=
  effectiveComparison f d a b ≤ 0

instance (f : SortField) (d : SortDirection) : DecidableRel (modelLE f d) :=
  fun a b => inferInstanceAs (Decidable (_ ≤ _))

/-- `filterAndSortModels` from the store: filters `state.models` by the
search term when it is non-empty (a JS truthiness test), sorts the
result with the comparator, and stores the filtered, sorted list back
into `state.models`.  `Array.prototype.sort` is embedded as insertion
sort, a sort with respect to the same comparator. -/
def filterAndSortModels (st : BenchmarkState) : BenchmarkState :=
  let filtered :=
    if st.searchTerm ≠ "" then st.models.filter (matchesSearch st.searchTerm)
    else st.models
  { st with models := List.insertionSort (modelLE st.sortField st.sortDirection) filtered }

/-! ## Results view (`src/unnamed/part_009` and
`src/frontend/src/routes/benchmarks/BenchmarkComparison.svelte`) -/

/-- One element of `BenchmarkResult.metrics` (the `metrics` array item
type declared in `src/unnamed/part_009`).  Optional TypeScript fields
become `Option ℚ`. -/
structure MetricRec where
  timestamp : ℚ
  tokens_per_second : ℚ
  memory_usage_mb : ℚ
  gpu_memory_usage_mb : Option ℚ
  cpu_usage_percent : ℚ
  gpu_usage_percent : Option ℚ
  cpu_temperature : Option ℚ
  gpu_temperature : Option ℚ
  deriving DecidableEq

/-- The runtime shape of one benchmark result as fetched by the results
page (`BenchmarkResult` in `src/unnamed/part_009`); the `config` block
is opaque to the functions verified here and is elided. -/
structure BenchmarkResult where
  id : String
  status : String
  start_time : String
  end_time : Option String
  metrics : List MetricRec
  average_tokens_per_second : ℚ
  average_latency_ms : ℚ
  average_power_usage : Option ℚ
  error : Option String
  deriving DecidableEq

/-- Dynamic field access `firstMetric[metricId]` on a metrics record:
`none` embeds JS `undefined` (either an absent optional field or an id
that is not a field at all, e.g. `average_token_ms`). -/
def MetricRec.field (m : MetricRec) : String → Option ℚ
  | "timestamp" => some m.timestamp
  | "tokens_per_second" => some m.tokens_per_second
  | "memory_usage_mb" => some m.memory_usage_mb
  | "gpu_memory_usage_mb" => m.gpu_memory_usage_mb
  | "cpu_usage_percent" => some m.cpu_usage_percent
  | "gpu_usage_percent" => m.gpu_usage_percent
  | "cpu_temperature" => m.cpu_temperature
  | "gpu_temperature" => m.gpu_temperature
  | _ => none

/-- JS `v || 0` for an optional number: `0` for `undefined` and for `0`
itself (falsy), otherwise the number. -/
def jsOrZero (v : Option ℚ) : ℚ :=
  match v with
  | none => 0
  | some x => if x = 0 then 0 else x

/-- JS truthiness of `result.average_power_usage`: false for
`undefined` and for `0`. -/
def powerTruthy (v : Option ℚ) : Bool :=
  match v with
  | none => false
  | some x => x ≠ 0

/-- `getMetricValue` from `BenchmarkComparison.svelte`: the summary
value the comparison chart reports for one result and one metric id.
Throughput and first-token latency return the precomputed averages;
power returns the average when truthy; every other metric id falls
through to `result.metrics[0][metricId] || 0`.  On an empty `metrics`
array that fall-through dereferences `undefined` and throws, embedded
as `none`. -/
def getMetricValue (result : BenchmarkResult) (metricId : String) : Option ℚ :=
  if metricId = "tokens_per_second" then some result.average_tokens_per_second
  else if metricId = "first_token_ms" then some result.average_latency_ms
  else if metricId = "power_usage_watts" ∧ powerTruthy result.average_power_usage then
    some (jsOrZero result.average_power_usage)
  else
    (result.metrics.head?).map (fun m => jsOrZero (m.field metricId))

/-- Arithmetic mean of a series (sum over length; `0` on the empty
series, since `ℚ` division by zero is zero). -/
def mean (xs : List ℚ) : ℚ :=
  xs.sum / xs.length

/-! ## Agent Liveness Registry

Modelled from the spec: the registry (spec §4.1) is a backend component
absent from `src/` (only its HTTP callers and the docs are present).
Time is a simulated clock `ℕ`. -/

/-- Liveness states of an agent (spec §4.1). -/
inductive Liveness where
  | Unknown
  | Active
  | Stale
  | Evicted
  deriving DecidableEq

/-- Modelled from the spec: one agent record.  `generation` numbers the
logical entry: a re-registration after eviction is a new logical entry
even under the same id, so it increments the generation. -/
structure AgentRec where
  lastHeartbeat : ℕ
  liveness : Liveness
  generation : ℕ
  deriving DecidableEq

/-- Heartbeat interval and eviction grace (independent configured
durations, spec §5). -/
structure RegistryConfig where
  interval : ℕ
  grace : ℕ
  deriving DecidableEq

/-- Modelled from the spec: the registry map, agent id to record. -/
abbrev Registry : Type := String → Option AgentRec

/-- Modelled from the spec: `Heartbeat` (spec §4.1) — upserts the
record and transitions to Active, refreshing `lastHeartbeat`.  A
heartbeat from an id whose record is Evicted is a fresh registration:
it creates a new logical entry (next generation) rather than
resurrecting the evicted one. -/
def heartbeat (now : ℕ) (id : String) (reg : Registry) : Registry :=
  fun i =>
    if i = id then
      match reg id with
      | some r =>
          if r.liveness = .Evicted then
            some { lastHeartbeat := now, liveness := .Active, generation := r.generation + 1 }
          else
            some { r with lastHeartbeat := now, liveness := .Active }
      | none => some { lastHeartbeat := now, liveness := .Active, generation := 0 }
    else reg i

/-- Modelled from the spec: the per-record action of the liveness sweep
— Stale after one missed interval, Evicted once the grace period is
also exceeded; an Evicted record stays Evicted. -/
def sweepRec (cfg : RegistryConfig) (now : ℕ) (r : AgentRec) : AgentRec :=
  if r.liveness = .Evicted then r
  else if r.lastHeartbeat + cfg.interval + cfg.grace < now then
    { r with liveness := .Evicted }
  else if r.lastHeartbeat + cfg.interval < now then
    { r with liveness := .Stale }
  else r

/-- Modelled from the spec: the background liveness sweep, scanning all
agents (spec §4.1). -/
def sweep (cfg : RegistryConfig) (now : ℕ) (reg : Registry) : Registry :=
  fun i => (reg i).map (sweepRec cfg now)

/-! ## Metrics Aggregator

Modelled from the spec: the aggregator (spec §4.3) is a backend
component absent from `src/`. -/

/-- Modelled from the spec: one timestamped observation.  Utilization
and memory may stop being reported mid-run, so they are optional;
their sub-series are reduced independently. -/
structure MetricSample where
  timestamp : ℕ
  throughput : ℚ
  latency : ℚ
  utilization : Option ℚ
  memoryMb : Option ℚ
  deriving DecidableEq

/-- Modelled from the spec: the summary statistics `Reduce` produces. -/
structure SummaryStatistics where
  meanThroughput : ℚ
  meanLatency : ℚ
  meanUtilization : ℚ
  meanMemory : ℚ
  deriving DecidableEq

/-- Modelled from the spec: `Reduce` (spec §4.3) — arithmetic means of
the throughput, latency, utilization and memory series, each sub-series
reduced independently of the others (no interpolation). -/
def reduce (samples : List MetricSample) : SummaryStatistics where
  meanThroughput := mean (samples.map (fun s => s.throughput))
  meanLatency := mean (samples.map (fun s => s.latency))
  meanUtilization := mean (samples.filterMap (fun s => s.utilization))
  meanMemory := mean (samples.filterMap (fun s => s.memoryMb))

/-! ## Benchmark Session Coordinator

Modelled from the spec: the coordinator (spec §4.2) is a backend
component absent from `src/`. -/

/-- Session states (spec §4.2). -/
inductive SessionState where
  | Pending
  | Running
  | Completed
  | Failed
  | Cancelled
  deriving DecidableEq

/-- Completed, Failed and Cancelled are terminal. -/
def SessionState.isTerminal : SessionState → Bool
  | .Completed => true
  | .Failed => true
  | .Cancelled => true
  | _ => false

/-- Modelled from the spec: one session record, with its accumulated
samples, out-of-order rejection count, final statistics and error
detail. -/
structure Session where
  sid : ℕ
  agentId : String
  state : SessionState
  samples : List MetricSample
  rejectedCount : ℕ
  stats : Option SummaryStatistics
  errorDetail : Option String
  deriving DecidableEq

/-- Modelled from the spec: the coordinator state — the session store
and the next fresh session id. -/
structure Coord where
  sessions : List Session
  nextId : ℕ
  deriving DecidableEq

/-- Typed failure reasons of `StartSession` (spec §7). -/
inductive StartErr where
  | AgentUnavailable
  | AgentBusy
  deriving DecidableEq

/-- Modelled from the spec: the per-agent busy marker — some session
targeting the agent is not yet terminal (it is set atomically with
session creation in Pending, spec §5, and covers Running sessions). -/
def Coord.busy (c : Coord) (agentId : String) : Bool :=
  c.sessions.any (fun s => s.agentId = agentId && !s.state.isTerminal)

/-- Modelled from the spec: the session a successful `StartSession`
creates — Pending, with the next fresh id and empty sample set. -/
def freshSession (c : Coord) (agentId : String) : Session where
  sid := c.nextId
  agentId := agentId
  state := .Pending
  samples := []
  rejectedCount := 0
  stats := none
  errorDetail := none

/-- Modelled from the spec: `StartSession` (spec §4.2) up to its
suspension point — re-reads the registry, fails with `AgentUnavailable`
unless it reports Active, fails with `AgentBusy` when the busy marker
is set, and otherwise creates the session in Pending (busy from this
instant) and returns its id.  The dispatch acknowledgment is resolved
by the separate `resolveDispatch` step. -/
def startSession (reg : Registry) (agentId : String) (c : Coord) :
    Except StartErr ℕ × Coord :=
  match reg agentId with
  | some r =>
      if r.liveness = .Active then
        if c.busy agentId then (.error .AgentBusy, c)
        else
          (.ok c.nextId,
           { sessions := c.sessions ++ [freshSession c agentId],
             nextId := c.nextId + 1 })
      else (.error .AgentUnavailable, c)
  | none => (.error .AgentUnavailable, c)

/-- Modelled from the spec: resolution of the bounded dispatch wait — a
Pending session becomes Running on acknowledgment, or Failed with the
dispatch-error detail. -/
def resolveSession (sid : ℕ) (ack : Bool) (detail : String) (s : Session) : Session :=
  if s.sid = sid ∧ s.state = .Pending then
    if ack then { s with state := .Running }
    else { s with state := .Failed, errorDetail := some detail }
  else s

/-- Modelled from the spec: apply a dispatch resolution to the store. -/
def resolveDispatch (c : Coord) (sid : ℕ) (ack : Bool) (detail : String) : Coord :=
  { c with sessions := c.sessions.map (resolveSession sid ack detail) }

/-- Events on a session's progress channel: a metric payload, the two
terminal signals, and the transport-level disconnection. -/
inductive ProgressEvent where
  | metric (m : MetricSample)
  | done
  | errorEv (msg : String)
  | disconnect
  deriving DecidableEq

/-- Modelled from the spec: `Record` (spec §4.3) — rejects a sample
whose timestamp precedes the latest recorded one (counted, non-fatal),
otherwise appends. -/
def recordSample (s : Session) (m : MetricSample) : Session :=
  match s.samples.getLast? with
  | some prev =>
      if m.timestamp < prev.timestamp then
        { s with rejectedCount := s.rejectedCount + 1 }
      else { s with samples := s.samples ++ [m] }
  | none => { s with samples := s.samples ++ [m] }

/-- Modelled from the spec: the per-session action of `ReportProgress`
(spec §4.2) — only a Running session reacts; `done` reduces the
accumulated samples and completes; an error-terminal event or a stream
disconnection moves to Failed with the partial sample set retained. -/
def progressSession (sid : ℕ) (e : ProgressEvent) (s : Session) : Session :=
  if s.sid = sid ∧ s.state = .Running then
    match e with
    | .metric m => recordSample s m
    | .done => { s with state := .Completed, stats := some (reduce s.samples) }
    | .errorEv msg => { s with state := .Failed, errorDetail := some msg }
    | .disconnect => { s with state := .Failed, errorDetail := some "StreamDisconnected" }
  else s

/-- Modelled from the spec: `ReportProgress` routed to the session. -/
def reportProgress (c : Coord) (sid : ℕ) (e : ProgressEvent) : Coord :=
  { c with sessions := c.sessions.map (progressSession sid e) }

/-- Modelled from the spec: the per-session action of `Cancel` — only a
Pending or Running session flips to Cancelled. -/
def cancelSession (sid : ℕ) (s : Session) : Session :=
  if s.sid = sid ∧ (s.state = .Pending ∨ s.state = .Running) then
    { s with state := .Cancelled }
  else s

/-- Modelled from the spec: `Cancel` (spec §4.2), the locally visible
part — best-effort agent notification is fire-and-forget. -/
def cancel (c : Coord) (sid : ℕ) : Coord :=
  { c with sessions := c.sessions.map (cancelSession sid) }

/-- Every coordinator operation that can touch the session store. -/
inductive CoordOp where
  | start (reg : Registry) (agentId : String)
  | resolve (sid : ℕ) (ack : Bool) (detail : String)
  | report (sid : ℕ) (e : ProgressEvent)
  | cancelOp (sid : ℕ)

/-- Apply one coordinator operation to the coordinator state. -/
def applyOp (c : Coord) : CoordOp → Coord
  | .start reg agentId => (startSession reg agentId c).2
  | .resolve sid ack detail => resolveDispatch c sid ack detail
  | .report sid e => reportProgress c sid e
  | .cancelOp sid => cancel c sid

/-- The per-agent serialization invariant: any two sessions targeting
the same agent are not both live (at most one non-terminal — hence at
most one Running — session per agent). -/
def Coord.serialized (c : Coord) : Prop :=
  c.sessions.Pairwise (fun s t =>
    s.agentId = t.agentId → s.state.isTerminal = true ∨ t.state.isTerminal = true)

instance (c : Coord) : Decidable c.serialized := by
  unfold Coord.serialized
  exact List.instDecidablePairwise _

/-! ## Theorems for the store claims -/

/-- C8: when the HTTP request in `getClients` fails or returns a non-OK
response, `getClients` returns an empty array instead of throwing, sets
the state's `error` field to the failure message and `loading` to
`false`, and leaves the previously stored `clients` list and every
other state field unchanged. -/
theorem C8_getClients_failure (st : BenchmarkState) (msg : String) (outcome : ClientsFetch)
    (h : outcome = .httpNotOk ∧ msg = "Failed to fetch clients" ∨
         outcome = .networkFail msg) :
    (getClients st outcome).2 = [] ∧
    (getClients st outcome).1.error = some msg ∧
    (getClients st outcome).1.loading = false ∧
    (getClients st outcome).1.clients = st.clients ∧
    (getClients st outcome).1.selectedClients = st.selectedClients ∧
    (getClients st outcome).1.models = st.models ∧
    (getClients st outcome).1.selectedModels = st.selectedModels ∧
    (getClients st outcome).1.prompts = st.prompts ∧
    (getClients st outcome).1.selectedPrompts = st.selectedPrompts ∧
    (getClients st outcome).1.availableGPUs = st.availableGPUs ∧
    (getClients st outcome).1.hardwareConfig = st.hardwareConfig ∧
    (getClients st outcome).1.testConfig = st.testConfig ∧
    (getClients st outcome).1.searchTerm = st.searchTerm ∧
    (getClients st outcome).1.sortField = st.sortField ∧
    (getClients st outcome).1.sortDirection = st.sortDirection ∧
    (getClients st outcome).1.activeTests = st.activeTests ∧
    (getClients st outcome).1.activeBenchmarks = st.activeBenchmarks := by
  rcases h with ⟨ho, hm⟩ | ho
  · subst ho; subst hm; simp [getClients]
  · subst ho; simp [getClients]

/-- Witness for C8 at a concrete failing fetch. -/
theorem C8_getClients_failure_witness :
    (getClients initialBenchmarkState (.networkFail "boom")).2 = [] ∧
    (getClients initialBenchmarkState (.networkFail "boom")).1.error = some "boom" ∧
    (getClients initialBenchmarkState (.networkFail "boom")).1.loading = false ∧
    (getClients initialBenchmarkState (.networkFail "boom")).1.clients =
      initialBenchmarkState.clients ∧
    (getClients initialBenchmarkState (.networkFail "boom")).1.selectedClients =
      initialBenchmarkState.selectedClients ∧
    (getClients initialBenchmarkState (.networkFail "boom")).1.models =
      initialBenchmarkState.models ∧
    (getClients initialBenchmarkState (.networkFail "boom")).1.selectedModels =
      initialBenchmarkState.selectedModels ∧
    (getClients initialBenchmarkState (.networkFail "boom")).1.prompts =
      initialBenchmarkState.prompts ∧
    (getClients initialBenchmarkState (.networkFail "boom")).1.selectedPrompts =
      initialBenchmarkState.selectedPrompts ∧
    (getClients initialBenchmarkState (.networkFail "boom")).1.availableGPUs =
      initialBenchmarkState.availableGPUs ∧
    (getClients initialBenchmarkState (.networkFail "boom")).1.hardwareConfig =
      initialBenchmarkState.hardwareConfig ∧
    (getClients initialBenchmarkState (.networkFail "boom")).1.testConfig =
      initialBenchmarkState.testConfig ∧
    (getClients initialBenchmarkState (.networkFail "boom")).1.searchTerm =
      initialBenchmarkState.searchTerm ∧
    (getClients initialBenchmarkState (.networkFail "boom")).1.sortField =
      initialBenchmarkState.sortField ∧
    (getClients initialBenchmarkState (.networkFail "boom")).1.sortDirection =
      initialBenchmarkState.sortDirection ∧
    (getClients initialBenchmarkState (.networkFail "boom")).1.activeTests =
      initialBenchmarkState.activeTests ∧
    (getClients initialBenchmarkState (.networkFail "boom")).1.activeBenchmarks =
      initialBenchmarkState.activeBenchmarks :=
  C8_getClients_failure initialBenchmarkState "boom" (.networkFail "boom") (Or.inr rfl)

/-- C9: `toggleModel m` removes every occurrence of `m` from
`selectedModels` when present, appends `m` when absent, changes no
other field; toggling twice restores the original membership of `m`. -/
theorem C9_toggleModel_involutive_membership (st : BenchmarkState) (m : String) :
    (m ∈ st.selectedModels →
      (toggleModel st m).selectedModels =
        st.selectedModels.filter (fun x => x ≠ m) ∧
      m ∉ (toggleModel st m).selectedModels) ∧
    (m ∉ st.selectedModels →
      (toggleModel st m).selectedModels = st.selectedModels ++ [m]) ∧
    (toggleModel st m).clients = st.clients ∧
    (toggleModel st m).selectedClients = st.selectedClients ∧
    (toggleModel st m).models = st.models ∧
    (toggleModel st m).prompts = st.prompts ∧
    (toggleModel st m).selectedPrompts = st.selectedPrompts ∧
    (toggleModel st m).availableGPUs = st.availableGPUs ∧
    (toggleModel st m).hardwareConfig = st.hardwareConfig ∧
    (toggleModel st m).testConfig = st.testConfig ∧
    (toggleModel st m).searchTerm = st.searchTerm ∧
    (toggleModel st m).sortField = st.sortField ∧
    (toggleModel st m).sortDirection = st.sortDirection ∧
    (toggleModel st m).loading = st.loading ∧
    (toggleModel st m).error = st.error ∧
    (toggleModel st m).activeTests = st.activeTests ∧
    (toggleModel st m).activeBenchmarks = st.activeBenchmarks ∧
    (m ∈ (toggleModel (toggleModel st m) m).selectedModels ↔ m ∈ st.selectedModels) := by
  by_cases hm : m ∈ st.selectedModels <;>
    simp_all [toggleModel, List.mem_filter]

/-- Witness for C9 at a concrete selection. -/
theorem C9_toggleModel_witness :
    ("m1" ∈ ({ initialBenchmarkState with selectedModels := ["m1", "m2", "m1"] } :
        BenchmarkState).selectedModels →
      (toggleModel { initialBenchmarkState with selectedModels := ["m1", "m2", "m1"] }
          "m1").selectedModels =
        (["m1", "m2", "m1"] : List String).filter (fun x => x ≠ "m1") ∧
      "m1" ∉ (toggleModel { initialBenchmarkState with selectedModels := ["m1", "m2", "m1"] }
          "m1").selectedModels) ∧
    ("m1" ∉ (["m1", "m2", "m1"] : List String) →
      (toggleModel { initialBenchmarkState with selectedModels := ["m1", "m2", "m1"] }
          "m1").selectedModels = ["m1", "m2", "m1"] ++ ["m1"]) ∧
    (toggleModel { initialBenchmarkState with selectedModels := ["m1", "m2", "m1"] }
        "m1").clients = initialBenchmarkState.clients ∧
    (toggleModel { initialBenchmarkState with selectedModels := ["m1", "m2", "m1"] }
        "m1").selectedClients = initialBenchmarkState.selectedClients ∧
    (toggleModel { initialBenchmarkState with selectedModels := ["m1", "m2", "m1"] }
        "m1").models = initialBenchmarkState.models ∧
    (toggleModel { initialBenchmarkState with selectedModels := ["m1", "m2", "m1"] }
        "m1").prompts = initialBenchmarkState.prompts ∧
    (toggleModel { initialBenchmarkState with selectedModels := ["m1", "m2", "m1"] }
        "m1").selectedPrompts = initialBenchmarkState.selectedPrompts ∧
    (toggleModel { initialBenchmarkState with selectedModels := ["m1", "m2", "m1"] }
        "m1").availableGPUs = initialBenchmarkState.availableGPUs ∧
    (toggleModel { initialBenchmarkState with selectedModels := ["m1", "m2", "m1"] }
        "m1").hardwareConfig = initialBenchmarkState.hardwareConfig ∧
    (toggleModel { initialBenchmarkState with selectedModels := ["m1", "m2", "m1"] }
        "m1").testConfig = initialBenchmarkState.testConfig ∧
    (toggleModel { initialBenchmarkState with selectedModels := ["m1", "m2", "m1"] }
        "m1").searchTerm = initialBenchmarkState.searchTerm ∧
    (toggleModel { initialBenchmarkState with selectedModels := ["m1", "m2", "m1"] }
        "m1").sortField = initialBenchmarkState.sortField ∧
    (toggleModel { initialBenchmarkState with selectedModels := ["m1", "m2", "m1"] }
        "m1").sortDirection = initialBenchmarkState.sortDirection ∧
    (toggleModel { initialBenchmarkState with selectedModels := ["m1", "m2", "m1"] }
        "m1").loading = initialBenchmarkState.loading ∧
    (toggleModel { initialBenchmarkState with selectedModels := ["m1", "m2", "m1"] }
        "m1").error = initialBenchmarkState.error ∧
    (toggleModel { initialBenchmarkState with selectedModels := ["m1", "m2", "m1"] }
        "m1").activeTests = initialBenchmarkState.activeTests ∧
    (toggleModel { initialBenchmarkState with selectedModels := ["m1", "m2", "m1"] }
        "m1").activeBenchmarks = initialBenchmarkState.activeBenchmarks ∧
    ("m1" ∈ (toggleModel
        (toggleModel { initialBenchmarkState with selectedModels := ["m1", "m2", "m1"] } "m1")
        "m1").selectedModels ↔
      "m1" ∈ ({ initialBenchmarkState with selectedModels := ["m1", "m2", "m1"] } :
        BenchmarkState).selectedModels) :=
  C9_toggleModel_involutive_membership
    { initialBenchmarkState with selectedModels := ["m1", "m2", "m1"] } "m1"

/-- C5 counterexample: a `startBenchmark` call whose POST succeeds with
benchmark id `"bench-1"` completes with no session id delivered to the
caller (the function returns `undefined`, the id is only logged) and no
typed failure either (`error` stays `null`): the caller receives
neither. -/
theorem C5_counterexample_success_delivers_nothing :
    (startBenchmark initialBenchmarkState (.ok "bench-1")).2 = none ∧
    (startBenchmark initialBenchmarkState (.ok "bench-1")).1.error = none := by
  exact ⟨rfl, rfl⟩

/-- C5 (amended): every `startBenchmark` call completes with `loading`
reset to `false` and returns no session id; a failure is delivered as a
typed message in the store's `error` field, but on success the
benchmark id in the response is discarded, so the caller receives
neither a session id nor a failure. -/
theorem C5_startBenchmark_outcomes (st : BenchmarkState) (outcome : StartOutcome) :
    (startBenchmark st outcome).2 = none ∧
    (startBenchmark st outcome).1.loading = false ∧
    (∀ benchId, outcome = .ok benchId →
      (startBenchmark st outcome).1.error = none) ∧
    (∀ detail, outcome = .httpNotOk detail →
      (startBenchmark st outcome).1.error =
        some (jsOrString detail "Failed to start benchmark")) ∧
    (∀ msg, outcome = .networkFail msg →
      (startBenchmark st outcome).1.error = some msg) := by
  rcases outcome <;> simp [startBenchmark]

/-- Witness for C5's amended theorem at a concrete failing POST. -/
theorem C5_startBenchmark_outcomes_witness :
    (startBenchmark initialBenchmarkState (.networkFail "connection refused")).2 = none ∧
    (startBenchmark initialBenchmarkState (.networkFail "connection refused")).1.loading
      = false ∧
    (∀ benchId, StartOutcome.networkFail "connection refused" = .ok benchId →
      (startBenchmark initialBenchmarkState (.networkFail "connection refused")).1.error
        = none) ∧
    (∀ detail, StartOutcome.networkFail "connection refused" = .httpNotOk detail →
      (startBenchmark initialBenchmarkState (.networkFail "connection refused")).1.error =
        some (jsOrString detail "Failed to start benchmark")) ∧
    (∀ msg, StartOutcome.networkFail "connection refused" = .networkFail msg →
      (startBenchmark initialBenchmarkState (.networkFail "connection refused")).1.error =
        some msg) :=
  C5_startBenchmark_outcomes initialBenchmarkState (.networkFail "connection refused")

/-! ## Comparator order facts for `filterAndSortModels` -/

theorem modelLE_name_asc (a b : Model) : modelLE .name .asc a b ↔ a.name ≤ b.name := by
  simp only [modelLE, effectiveComparison, modelComparison]
  rcases lt_trichotomy a.name b.name with h | h | h
  · simp [h, le_of_lt h]
  · simp [h, lt_irrefl]
  · simp [asymm h, h, not_le.mpr h]

theorem modelLE_name_desc (a b : Model) : modelLE .name .desc a b ↔ b.name ≤ a.name := by
  simp only [modelLE, effectiveComparison, modelComparison]
  rcases lt_trichotomy a.name b.name with h | h | h
  · simp [h, asymm h, not_le.mpr h]
  · simp [h, lt_irrefl]
  · simp [asymm h, h, le_of_lt h]

theorem modelLE_size_asc (a b : Model) : modelLE .size .asc a b ↔ a.size ≤ b.size := by
  simp only [modelLE, effectiveComparison, modelComparison]
  omega

theorem modelLE_size_desc (a b : Model) : modelLE .size .desc a b ↔ b.size ≤ a.size := by
  simp only [modelLE, effectiveComparison, modelComparison]
  omega

theorem modelLE_modified (d : SortDirection) (a b : Model) :
    modelLE .modified_at d a b := by
  rcases d <;> simp [modelLE, effectiveComparison, modelComparison]

theorem modelLE_isTotal (f : SortField) (d : SortDirection) :
    IsTotal Model (modelLE f d) := by
  constructor
  intro a b
  rcases f <;> rcases d
  · rw [modelLE_name_asc, modelLE_name_asc]; exact le_total _ _
  · rw [modelLE_name_desc, modelLE_name_desc]; exact (le_total _ _).symm
  · rw [modelLE_size_asc, modelLE_size_asc]; exact le_total _ _
  · rw [modelLE_size_desc, modelLE_size_desc]; exact (le_total _ _).symm
  · exact Or.inl (modelLE_modified _ _ _)
  · exact Or.inl (modelLE_modified _ _ _)

theorem modelLE_isTrans (f : SortField) (d : SortDirection) :
    IsTrans Model (modelLE f d) := by
  constructor
  intro a b c hab hbc
  rcases f <;> rcases d
  · rw [modelLE_name_asc] at *; exact le_trans hab hbc
  · rw [modelLE_name_desc] at *; exact le_trans hbc hab
  · rw [modelLE_size_asc] at *; exact le_trans hab hbc
  · rw [modelLE_size_desc] at *; exact le_trans hbc hab
  · exact modelLE_modified _ _ _
  · exact modelLE_modified _ _ _

/-- The empty search term matches every model (JS `includes('')` is
always true). -/
theorem matchesSearch_empty (m : Model) : matchesSearch "" m = true := by
  have h : ("" : String).toList.map Char.toLower = [] := rfl
  rw [matchesSearch, h]
  generalize m.name.toList.map Char.toLower = hay
  cases hay with
  | nil => rfl
  | cons c cs => rfl

/-- Re-running `filterAndSortModels` after the search term has been
cleared only re-sorts whatever models survived: there is no second copy
of the full list to restore from. -/
theorem filterAndSortModels_clear (st : BenchmarkState) :
    (filterAndSortModels { st with searchTerm := "" }).models =
      List.insertionSort (modelLE st.sortField st.sortDirection) st.models := by
  rw [filterAndSortModels]
  simp

/-- C10: `filterAndSortModels` replaces `state.models` with exactly the
models whose lower-cased name contains the lower-cased search term,
sorted by the current sort field and direction; no other field changes;
and the replacement is destructive — after a non-empty search, models
that did not match are gone from the store and do not reappear when the
search term is cleared and the function runs again. -/
theorem C10_filterAndSortModels_destructive (st : BenchmarkState) :
    List.Perm (filterAndSortModels st).models
      (st.models.filter (matchesSearch st.searchTerm)) ∧
    List.Sorted (modelLE st.sortField st.sortDirection) (filterAndSortModels st).models ∧
    (filterAndSortModels st).clients = st.clients ∧
    (filterAndSortModels st).selectedClients = st.selectedClients ∧
    (filterAndSortModels st).selectedModels = st.selectedModels ∧
    (filterAndSortModels st).prompts = st.prompts ∧
    (filterAndSortModels st).selectedPrompts = st.selectedPrompts ∧
    (filterAndSortModels st).availableGPUs = st.availableGPUs ∧
    (filterAndSortModels st).hardwareConfig = st.hardwareConfig ∧
    (filterAndSortModels st).testConfig = st.testConfig ∧
    (filterAndSortModels st).searchTerm = st.searchTerm ∧
    (filterAndSortModels st).sortField = st.sortField ∧
    (filterAndSortModels st).sortDirection = st.sortDirection ∧
    (filterAndSortModels st).loading = st.loading ∧
    (filterAndSortModels st).error = st.error ∧
    (filterAndSortModels st).activeTests = st.activeTests ∧
    (filterAndSortModels st).activeBenchmarks = st.activeBenchmarks ∧
    (st.searchTerm ≠ "" →
      ∀ m ∈ st.models, matchesSearch st.searchTerm m = false →
        m ∉ (filterAndSortModels
              { filterAndSortModels st with searchTerm := "" }).models) := by
  haveI := modelLE_isTotal st.sortField st.sortDirection
  haveI := modelLE_isTrans st.sortField st.sortDirection
  refine ⟨?_, ?_, rfl, rfl, rfl, rfl, rfl, rfl, rfl, rfl, rfl, rfl, rfl, rfl, rfl,
    rfl, rfl, ?_⟩
  · by_cases hterm : st.searchTerm = ""
    · have hall : st.models.filter (matchesSearch st.searchTerm) = st.models := by
        rw [hterm]
        exact List.filter_eq_self.mpr (fun m _ => matchesSearch_empty m)
      rw [hall]
      simp only [filterAndSortModels, hterm, ne_eq, not_true_eq_false, if_false]
      exact List.perm_insertionSort _ _
    · simp only [filterAndSortModels, ne_eq, hterm, not_false_eq_true, if_true]
      exact List.perm_insertionSort _ _
  · exact List.sorted_insertionSort _ _
  · intro hterm m _ hnomatch hmem
    rw [filterAndSortModels_clear (filterAndSortModels st),
      List.mem_insertionSort] at hmem
    replace hmem : m ∈ List.insertionSort (modelLE st.sortField st.sortDirection)
        (if st.searchTerm ≠ "" then st.models.filter (matchesSearch st.searchTerm)
         else st.models) := hmem
    rw [List.mem_insertionSort, if_pos hterm] at hmem
    have h3 := (List.mem_filter.mp hmem).2
    rw [hnomatch] at h3
    exact Bool.false_ne_true h3

/-- A concrete model list and search state for the C10 witness. -/
def modelFoo : Model where
  name := "foo"
  client_id := "c1"
  size := 1
  digest := "d1"

def modelBar : Model where
  name := "bar"
  client_id := "c1"
  size := 2
  digest := "d2"

def searchState : BenchmarkState :=
  { initialBenchmarkState with models := [modelFoo, modelBar], searchTerm := "f" }

/-- Witness for C10 at a concrete store: searching for `"f"` keeps only
`foo`, sorted, and `bar` does not come back after the term is cleared. -/
theorem C10_filterAndSortModels_witness :
    List.Perm (filterAndSortModels searchState).models
      (searchState.models.filter (matchesSearch searchState.searchTerm)) ∧
    List.Sorted (modelLE searchState.sortField searchState.sortDirection)
      (filterAndSortModels searchState).models ∧
    modelBar ∉ (filterAndSortModels
        { filterAndSortModels searchState with searchTerm := "" }).models := by
  obtain ⟨h1, h2, _, _, _, _, _, _, _, _, _, _, _, _, _, _, _, hd⟩ :=
    C10_filterAndSortModels_destructive searchState
  exact ⟨h1, h2, hd (by decide) modelBar (by decide) (by decide)⟩

/-! ## Theorems about the reported metric summaries (C3) -/

/-- A two-sample benchmark result whose memory readings are 100 MB and
200 MB (mean 150 MB). -/
def sampleMetricA : MetricRec where
  timestamp := 1
  tokens_per_second := 10
  memory_usage_mb := 100
  gpu_memory_usage_mb := none
  cpu_usage_percent := 40
  gpu_usage_percent := none
  cpu_temperature := none
  gpu_temperature := none

def sampleMetricB : MetricRec where
  timestamp := 2
  tokens_per_second := 20
  memory_usage_mb := 200
  gpu_memory_usage_mb := none
  cpu_usage_percent := 60
  gpu_usage_percent := none
  cpu_temperature := none
  gpu_temperature := none

def resultAB : BenchmarkResult where
  id := "b1"
  status := "completed"
  start_time := "t0"
  end_time := some "t1"
  metrics := [sampleMetricA, sampleMetricB]
  average_tokens_per_second := 15
  average_latency_ms := 5
  average_power_usage := none
  error := none

/-- C3 counterexample: on a finalized session with memory samples
100 MB and 200 MB, the reported memory summary is the first sample
(100), not the arithmetic mean of the memory sub-series (150). -/
theorem C3_counterexample_memory_first_sample :
    getMetricValue resultAB "memory_usage_mb" = some 100 ∧
    mean (resultAB.metrics.map (fun m => m.memory_usage_mb)) = 150 ∧
    getMetricValue resultAB "memory_usage_mb" ≠
      some (mean (resultAB.metrics.map (fun m => m.memory_usage_mb))) := by
  have h2 : mean (resultAB.metrics.map (fun m => m.memory_usage_mb)) = 150 := by
    norm_num [mean, resultAB, sampleMetricA, sampleMetricB]
  refine ⟨by decide, h2, ?_⟩
  rw [h2]
  decide

/-- C3 (amended): the summary the comparison view reports equals the
session's stored averages for throughput and latency, but for the
memory and utilization metrics it is the first recorded sample's value
(0 when the field is missing), not the arithmetic mean of the recorded
sub-series. -/
theorem C3_reported_summary (r : BenchmarkResult) (m : MetricRec) (rest : List MetricRec)
    (h : r.metrics = m :: rest) :
    getMetricValue r "tokens_per_second" = some r.average_tokens_per_second ∧
    getMetricValue r "first_token_ms" = some r.average_latency_ms ∧
    getMetricValue r "memory_usage_mb" = some (jsOrZero (some m.memory_usage_mb)) ∧
    getMetricValue r "cpu_usage_percent" = some (jsOrZero (some m.cpu_usage_percent)) ∧
    getMetricValue r "gpu_memory_usage_mb" = some (jsOrZero m.gpu_memory_usage_mb) ∧
    getMetricValue r "gpu_usage_percent" = some (jsOrZero m.gpu_usage_percent) := by
  simp [getMetricValue, h, MetricRec.field]

/-- Witness for C3's amended theorem at the concrete two-sample
result. -/
theorem C3_reported_summary_witness :
    getMetricValue resultAB "tokens_per_second" =
      some resultAB.average_tokens_per_second ∧
    getMetricValue resultAB "first_token_ms" = some resultAB.average_latency_ms ∧
    getMetricValue resultAB "memory_usage_mb" =
      some (jsOrZero (some sampleMetricA.memory_usage_mb)) ∧
    getMetricValue resultAB "cpu_usage_percent" =
      some (jsOrZero (some sampleMetricA.cpu_usage_percent)) ∧
    getMetricValue resultAB "gpu_memory_usage_mb" =
      some (jsOrZero sampleMetricA.gpu_memory_usage_mb) ∧
    getMetricValue resultAB "gpu_usage_percent" =
      some (jsOrZero sampleMetricA.gpu_usage_percent) :=
  C3_reported_summary resultAB sampleMetricA [sampleMetricB] rfl

/-! ## Registry liveness theorems (C7, C2) -/

/-- A record whose heartbeat is fresh (within one interval) is left
untouched by the sweep. -/
theorem sweepRec_fresh (cfg : RegistryConfig) (now : ℕ) (r : AgentRec)
    (h : now ≤ r.lastHeartbeat + cfg.interval) : sweepRec cfg now r = r := by
  rw [sweepRec]
  split
  · rfl
  · rw [if_neg (show ¬(r.lastHeartbeat + cfg.interval + cfg.grace < now) by omega),
        if_neg (show ¬(r.lastHeartbeat + cfg.interval < now) by omega)]

/-- A record silent beyond interval + grace is Evicted by the sweep
(and an already Evicted record stays Evicted). -/
theorem sweepRec_silence (cfg : RegistryConfig) (now : ℕ) (r : AgentRec)
    (h : r.lastHeartbeat + cfg.interval + cfg.grace < now) :
    (sweepRec cfg now r).liveness = .Evicted := by
  rw [sweepRec]
  split
  · assumption
  · rfl

/-- C7: heartbeats within the configured interval keep an agent Active
through the sweep; silence beyond interval + grace drives the record to
Evicted; and a late heartbeat on an Evicted id does not revive the
evicted logical entry — it registers a fresh entry (next generation)
with the same id. -/
theorem C7_liveness_lifecycle (cfg : RegistryConfig) (now : ℕ) (reg : Registry)
    (id : String) (r : AgentRec) :
    (reg id = some r → r.liveness = .Active → now ≤ r.lastHeartbeat + cfg.interval →
      sweep cfg now reg id = some r) ∧
    (r.lastHeartbeat + cfg.interval + cfg.grace < now →
      (sweepRec cfg now r).liveness = .Evicted) ∧
    (reg id = some r → r.liveness = .Evicted →
      heartbeat now id reg id =
        some { lastHeartbeat := now, liveness := .Active,
               generation := r.generation + 1 } ∧
      ∀ r2, heartbeat now id reg id = some r2 → r2.generation ≠ r.generation) := by
  refine ⟨?_, sweepRec_silence cfg now r, ?_⟩
  · intro hreg _ hfresh
    simp [sweep, hreg, sweepRec_fresh cfg now r hfresh]
  · intro hreg hev
    have hhb : heartbeat now id reg id =
        some { lastHeartbeat := now, liveness := .Active,
               generation := r.generation + 1 } := by
      simp [heartbeat, hreg, hev]
    refine ⟨hhb, ?_⟩
    intro r2 h2
    rw [hhb] at h2
    cases h2
    exact Nat.succ_ne_self r.generation

/-- Concrete registry for the liveness witnesses: `a1` heartbeated at
time 0 and is Active, `a9` is Evicted. -/
def cfg0 : RegistryConfig where
  interval := 10
  grace := 30

def recActive : AgentRec where
  lastHeartbeat := 0
  liveness := .Active
  generation := 0

def recEvicted : AgentRec where
  lastHeartbeat := 0
  liveness := .Evicted
  generation := 3

def reg0 : Registry :=
  fun i => if i = "a1" then some recActive else if i = "a9" then some recEvicted else none

/-- Witness for C7: at time 8 the sweep keeps `a1` Active; at time 100
the sweep evicts a record silent since 0; a heartbeat at time 100 on
the Evicted `a9` yields a fresh generation-4 entry, not the old one. -/
theorem C7_liveness_lifecycle_witness :
    sweep cfg0 8 reg0 "a1" = some recActive ∧
    (sweepRec cfg0 100 recActive).liveness = .Evicted ∧
    heartbeat 100 "a9" reg0 "a9" =
      some { lastHeartbeat := 100, liveness := .Active, generation := 4 } ∧
    (∀ r2, heartbeat 100 "a9" reg0 "a9" = some r2 → r2.generation ≠ 3) := by
  have h1 := (C7_liveness_lifecycle cfg0 8 reg0 "a1" recActive).1 (by decide) rfl (by decide)
  have h2 := (C7_liveness_lifecycle cfg0 100 reg0 "a1" recActive).2.1 (by decide)
  have h3 := (C7_liveness_lifecycle cfg0 100 reg0 "a9" recEvicted).2.2 (by decide) rfl
  exact ⟨h1, h2, h3.1, h3.2⟩

/-- C2: a `StartSession` whose target the registry reports as anything
other than Active — an unknown id, or a Stale/Evicted record, in
particular any record silent for longer than interval + grace once the
sweep has observed it — fails with `AgentUnavailable` and leaves the
session store untouched (no session created or dispatched). -/
theorem C2_agent_unavailable (reg : Registry) (agentId : String) (c : Coord)
    (cfg : RegistryConfig) (now : ℕ) :
    (∀ r, reg agentId = some r → r.liveness ≠ .Active →
      startSession reg agentId c = (.error .AgentUnavailable, c)) ∧
    (reg agentId = none →
      startSession reg agentId c = (.error .AgentUnavailable, c)) ∧
    (∀ r, reg agentId = some r → r.lastHeartbeat + cfg.interval + cfg.grace < now →
      startSession (sweep cfg now reg) agentId c = (.error .AgentUnavailable, c)) := by
  refine ⟨?_, ?_, ?_⟩
  · intro r hreg hna
    simp [startSession, hreg, hna]
  · intro hreg
    simp [startSession, hreg]
  · intro r hreg hsilent
    have hev := sweepRec_silence cfg now r hsilent
    have hsw : sweep cfg now reg agentId = some (sweepRec cfg now r) := by
      simp [sweep, hreg]
    simp [startSession, hsw, hev]

/-- A Stale record for the C2 witness. -/
def recStale : AgentRec where
  lastHeartbeat := 0
  liveness := .Stale
  generation := 0

def regStale : Registry := fun i => if i = "a2" then some recStale else none

def coord0 : Coord where
  sessions := []
  nextId := 0

/-- Witness for C2: a Stale agent, an unknown agent, and an agent
silent past interval + grace all make `startSession` fail with
`AgentUnavailable`, leaving the coordinator unchanged. -/
theorem C2_agent_unavailable_witness :
    startSession regStale "a2" coord0 = (.error .AgentUnavailable, coord0) ∧
    startSession regStale "zz" coord0 = (.error .AgentUnavailable, coord0) ∧
    startSession (sweep cfg0 100 reg0) "a1" coord0 =
      (.error .AgentUnavailable, coord0) := by
  have h := C2_agent_unavailable regStale "a2" coord0 cfg0 100
  have h2 := C2_agent_unavailable regStale "zz" coord0 cfg0 100
  have h3 := C2_agent_unavailable reg0 "a1" coord0 cfg0 100
  exact ⟨h.1 recStale rfl (by decide), h2.2.1 rfl, h3.2.2 recActive rfl (by decide)⟩

/-! ## Coordinator serialization and terminality (C1, C4, C6) -/

/-- The busy marker is set exactly when some session targeting the
agent is not yet terminal. -/
theorem busy_iff (c : Coord) (a : String) :
    c.busy a = true ↔
      ∃ s ∈ c.sessions, s.agentId = a ∧ s.state.isTerminal = false := by
  rw [Coord.busy, List.any_eq_true]
  constructor
  · rintro ⟨s, hs, hp⟩
    rw [Bool.and_eq_true, decide_eq_true_eq, Bool.not_eq_eq_eq_not, Bool.not_true] at hp
    exact ⟨s, hs, hp⟩
  · rintro ⟨s, hs, h1, h2⟩
    exact ⟨s, hs, by rw [Bool.and_eq_true, decide_eq_true_eq, Bool.not_eq_eq_eq_not,
      Bool.not_true]; exact ⟨h1, h2⟩⟩

/-- Per-session updaters preserve the target agent id. -/
theorem resolveSession_agentId (sid : ℕ) (ack : Bool) (d : String) (s : Session) :
    (resolveSession sid ack d s).agentId = s.agentId := by
  rw [resolveSession]
  split
  · split <;> rfl
  · rfl

theorem recordSample_agentId (s : Session) (m : MetricSample) :
    (recordSample s m).agentId = s.agentId := by
  cases hl : s.samples.getLast? with
  | none => simp [recordSample, hl]
  | some prev =>
    by_cases h : m.timestamp < prev.timestamp <;> simp [recordSample, hl, h]

theorem progressSession_agentId (sid : ℕ) (e : ProgressEvent) (s : Session) :
    (progressSession sid e s).agentId = s.agentId := by
  rw [progressSession.eq_def]
  split
  · rcases e with m | _ | msg | _
    · exact recordSample_agentId s m
    · rfl
    · rfl
    · rfl
  · rfl

theorem cancelSession_agentId (sid : ℕ) (s : Session) :
    (cancelSession sid s).agentId = s.agentId := by
  rw [cancelSession]
  split <;> rfl

/-- A session that is already terminal is left untouched by dispatch
resolution. -/
theorem resolveSession_terminal (sid : ℕ) (ack : Bool) (d : String) (s : Session)
    (h : s.state.isTerminal = true) : resolveSession sid ack d s = s := by
  rw [resolveSession, if_neg]
  rintro ⟨-, hp⟩
  rw [hp] at h
  simp [SessionState.isTerminal] at h

/-- A session that is already terminal is left untouched by any
progress event. -/
theorem progressSession_terminal (sid : ℕ) (e : ProgressEvent) (s : Session)
    (h : s.state.isTerminal = true) : progressSession sid e s = s := by
  rw [progressSession.eq_def, if_neg]
  rintro ⟨-, hp⟩
  rw [hp] at h
  simp [SessionState.isTerminal] at h

/-- A session that is already terminal is left untouched by a cancel
request. -/
theorem cancelSession_terminal (sid : ℕ) (s : Session)
    (h : s.state.isTerminal = true) : cancelSession sid s = s := by
  rw [cancelSession, if_neg]
  rintro ⟨-, hp | hp⟩ <;> rw [hp] at h <;> simp [SessionState.isTerminal] at h

/-- Per-session updaters never turn a terminal session non-terminal. -/
theorem resolveSession_preserves_terminal (sid : ℕ) (ack : Bool) (d : String)
    (s : Session) (h : s.state.isTerminal = true) :
    (resolveSession sid ack d s).state.isTerminal = true := by
  rw [resolveSession_terminal sid ack d s h]; exact h

theorem progressSession_preserves_terminal (sid : ℕ) (e : ProgressEvent)
    (s : Session) (h : s.state.isTerminal = true) :
    (progressSession sid e s).state.isTerminal = true := by
  rw [progressSession_terminal sid e s h]; exact h

theorem cancelSession_preserves_terminal (sid : ℕ) (s : Session)
    (h : s.state.isTerminal = true) :
    (cancelSession sid s).state.isTerminal = true := by
  rw [cancelSession_terminal sid s h]; exact h

/-- Mapping a per-session updater that preserves agent ids and
terminality over the store preserves the serialization invariant. -/
theorem serialized_map (c : Coord) (g : Session → Session) (n : ℕ)
    (hAgent : ∀ s, (g s).agentId = s.agentId)
    (hTerm : ∀ s, s.state.isTerminal = true → (g s).state.isTerminal = true)
    (h : c.serialized) : (Coord.mk (c.sessions.map g) n).serialized := by
  rw [Coord.serialized, List.pairwise_map]
  refine h.imp ?_
  intro s t hst heq
  rw [hAgent s, hAgent t] at heq
  rcases hst heq with hs | ht
  · exact Or.inl (hTerm s hs)
  · exact Or.inr (hTerm t ht)

/-- The two possible shapes of the session store after `startSession`:
unchanged (on failure) or with the fresh Pending session appended. -/
theorem startSession_sessions (reg : Registry) (a : String) (c : Coord) :
    (startSession reg a c).2.sessions = c.sessions ∨
    ((startSession reg a c).2.sessions = c.sessions ++ [freshSession c a] ∧
      c.busy a = false) := by
  rcases hra : reg a with _ | r
  · left; simp [startSession, hra]
  · by_cases hact : r.liveness = .Active
    · by_cases hb : c.busy a
      · left; simp [startSession, hra, hact, hb]
      · right
        refine ⟨?_, by rwa [Bool.not_eq_true] at hb⟩
        simp [startSession, hra, hact, hb]
    · left; simp [startSession, hra, hact]

/-- C1: per-agent serialization.  A `StartSession` naming an Active
agent that already has a Running session fails with `AgentBusy` and
creates nothing; two calls in quick succession — the second arriving
while the first call's session is still unresolved (Pending) — make
the second fail with `AgentBusy`; and the invariant "at most one
non-terminal (hence at most one Running) session targets any agent"
is preserved by every coordinator operation. -/
theorem C1_per_agent_serialization (reg : Registry) (a : String) (c : Coord)
    (r : AgentRec) :
    (reg a = some r → r.liveness = .Active →
      (∃ s ∈ c.sessions, s.agentId = a ∧ s.state = .Running) →
      startSession reg a c = (.error .AgentBusy, c)) ∧
    (∀ sid c2, reg a = some r → r.liveness = .Active →
      startSession reg a c = (.ok sid, c2) →
      startSession reg a c2 = (.error .AgentBusy, c2)) ∧
    (∀ op, c.serialized → (applyOp c op).serialized) := by
  refine ⟨?_, ?_, ?_⟩
  · intro hreg hact hrun
    have hbusy : c.busy a = true := by
      rcases hrun with ⟨s, hs, ha, hst⟩
      rw [busy_iff]
      exact ⟨s, hs, ha, by rw [hst]; rfl⟩
    simp [startSession, hreg, hact, hbusy]
  · intro sid c2 hreg hact hok
    have hnb : c.busy a = false := by
      by_contra hb
      rw [Bool.not_eq_false] at hb
      simp [startSession, hreg, hact, hb] at hok
    have hc2 : c2 = { sessions := c.sessions ++ [freshSession c a],
                      nextId := c.nextId + 1 } := by
      simp [startSession, hreg, hact, hnb] at hok
      exact hok.2.symm
    have hbusy2 : c2.busy a = true := by
      rw [hc2, busy_iff]
      exact ⟨freshSession c a, by simp, rfl, rfl⟩
    simp [startSession, hreg, hact, hbusy2]
  · intro op hser
    rcases op with ⟨reg2, a2⟩ | ⟨sid, ack, d⟩ | ⟨sid, e⟩ | ⟨sid⟩
    · rw [applyOp]
      rcases startSession_sessions reg2 a2 c with heq | ⟨heq, hnb⟩
      · rw [Coord.serialized, heq]
        exact hser
      · rw [Coord.serialized, heq, List.pairwise_append]
        refine ⟨hser, List.pairwise_singleton _ _, ?_⟩
        intro s hs t ht hagree
        rcases List.mem_singleton.mp ht
        left
        by_contra hterm
        rw [Bool.not_eq_true] at hterm
        have : c.busy a2 = true := by
          rw [busy_iff]
          exact ⟨s, hs, by rw [hagree]; rfl, hterm⟩
        rw [this] at hnb
        exact Bool.false_ne_true hnb.symm
    · exact serialized_map c _ _ (resolveSession_agentId sid ack d)
        (resolveSession_preserves_terminal sid ack d) hser
    · exact serialized_map c _ _ (progressSession_agentId sid e)
        (progressSession_preserves_terminal sid e) hser
    · exact serialized_map c _ _ (cancelSession_agentId sid)
        (cancelSession_preserves_terminal sid) hser

/-- C4: a session in a terminal state is frozen — no coordinator
operation (start, dispatch resolution, progress event including new
metric samples, or cancel) changes its state or its recorded sample
series; the record at its position in the store stays identical. -/
theorem C4_terminal_state_frozen (c : Coord) (op : CoordOp) (i : ℕ) (s : Session)
    (hget : c.sessions[i]? = some s) (ht : s.state.isTerminal = true) :
    (applyOp c op).sessions[i]? = some s := by
  rcases op with ⟨reg, a⟩ | ⟨sid, ack, d⟩ | ⟨sid, e⟩ | ⟨sid⟩
  · rw [applyOp]
    rcases startSession_sessions reg a c with heq | ⟨heq, -⟩
    · rw [heq]; exact hget
    · rw [heq, List.getElem?_append_left (List.getElem?_eq_some.mp hget).1]
      exact hget
  · show (c.sessions.map (resolveSession sid ack d))[i]? = some s
    rw [List.getElem?_map, hget, Option.map_some', resolveSession_terminal sid ack d s ht]
  · show (c.sessions.map (progressSession sid e))[i]? = some s
    rw [List.getElem?_map, hget, Option.map_some', progressSession_terminal sid e s ht]
  · show (c.sessions.map (cancelSession sid))[i]? = some s
    rw [List.getElem?_map, hget, Option.map_some', cancelSession_terminal sid s ht]

/-- C6: an error-terminal event or a stream disconnection on a Running
session moves it to Failed while retaining the partial sample series
exactly as recorded (nothing dropped), still available for reduction. -/
theorem C6_failure_retains_partial_samples (c : Coord) (i : ℕ) (s : Session)
    (hget : c.sessions[i]? = some s) (hr : s.state = .Running) :
    (∀ msg, (reportProgress c s.sid (.errorEv msg)).sessions[i]? =
      some { s with state := .Failed, errorDetail := some msg }) ∧
    (reportProgress c s.sid .disconnect).sessions[i]? =
      some { s with state := .Failed, errorDetail := some "StreamDisconnected" } := by
  constructor
  · intro msg
    show (c.sessions.map (progressSession s.sid (.errorEv msg)))[i]? = _
    rw [List.getElem?_map, hget, Option.map_some']
    rw [progressSession.eq_def, if_pos ⟨rfl, hr⟩]
  · show (c.sessions.map (progressSession s.sid .disconnect))[i]? = _
    rw [List.getElem?_map, hget, Option.map_some']
    rw [progressSession.eq_def, if_pos ⟨rfl, hr⟩]

/-! ## Concrete coordinator runs for the witnesses -/

def ms1 : MetricSample where
  timestamp := 1
  throughput := 10
  latency := 4
  utilization := some 50
  memoryMb := some 100

def ms2 : MetricSample where
  timestamp := 2
  throughput := 20
  latency := 6
  utilization := some 70
  memoryMb := some 140

def ms3 : MetricSample where
  timestamp := 3
  throughput := 30
  latency := 8
  utilization := none
  memoryMb := some 180

/-- A Running session against `a1` holding three recorded samples. -/
def runningSession : Session where
  sid := 7
  agentId := "a1"
  state := .Running
  samples := [ms1, ms2, ms3]
  rejectedCount := 0
  stats := none
  errorDetail := none

def coordRunning : Coord where
  sessions := [runningSession]
  nextId := 8

/-- A Completed session, for the terminality witness. -/
def doneSession : Session where
  sid := 3
  agentId := "a1"
  state := .Completed
  samples := [ms1]
  rejectedCount := 0
  stats := none
  errorDetail := none

def coordDone : Coord where
  sessions := [doneSession]
  nextId := 4

/-- Witness for C1: a second `startSession` against `a1` fails with
`AgentBusy` both while a session is Running and while the first call's
session is still Pending, and a cancel keeps the serialization
invariant. -/
theorem C1_per_agent_serialization_witness :
    startSession reg0 "a1" coordRunning = (.error .AgentBusy, coordRunning) ∧
    startSession reg0 "a1" (Coord.mk [freshSession coord0 "a1"] 1) =
      (.error .AgentBusy, Coord.mk [freshSession coord0 "a1"] 1) ∧
    (applyOp coordRunning (.cancelOp 7)).serialized := by
  have h := C1_per_agent_serialization reg0 "a1" coordRunning recActive
  have h0 := C1_per_agent_serialization reg0 "a1" coord0 recActive
  refine ⟨h.1 rfl rfl ⟨runningSession, by simp [coordRunning], rfl, rfl⟩,
    h0.2.1 0 (Coord.mk [freshSession coord0 "a1"] 1) rfl rfl rfl,
    h.2.2 (.cancelOp 7) (by decide)⟩

/-- Witness for C4: a metric sample reported against a Completed
session leaves its record (state and samples) identical. -/
theorem C4_terminal_state_frozen_witness :
    (applyOp coordDone (.report 3 (.metric ms2))).sessions[0]? = some doneSession :=
  C4_terminal_state_frozen coordDone (.report 3 (.metric ms2)) 0 doneSession rfl rfl

/-- Witness for C6: a disconnect after 3 recorded samples leaves a
Failed session holding exactly those 3 samples, which still reduce to
the means of the recorded sub-series. -/
theorem C6_failure_retains_partial_samples_witness :
    (reportProgress coordRunning 7 .disconnect).sessions[0]? =
      some { runningSession with state := .Failed, errorDetail := some "StreamDisconnected" } ∧
    runningSession.samples.length = 3 ∧
    reduce runningSession.samples =
      { meanThroughput := 20, meanLatency := 6,
        meanUtilization := 60, meanMemory := 140 } := by
  refine ⟨(C6_failure_retains_partial_samples coordRunning 0 runningSession rfl rfl).2,
    rfl, ?_⟩
  norm_num [reduce, mean, runningSession, ms1, ms2, ms3, List.filterMap_cons]

end OBT
